import Mathlib

/-!
The class `sd::graph::Scope` and the legacy native-op dispatch helpers of libnd4j.

Shallow embedding of

* `libnd4j/include/graph/Scope.h` (class `sd::graph::Scope`), and
* `libnd4j/include/legacy/impl/NativeOpExecutionerHelpers.cpp`
  (`execSort`, `execSortCooIndices`, `execRavelMultiIndex`, `execUnravelIndex`,
  `encodeBitmap`, `decodeBitmap`).

Pointers are modelled as opaque natural-number handles, `int` as a 32-bit
two's-complement value inside `Int`, `sd::LongType` as `Int`.
-/

namespace sd

/-! ## Machine integers -/

/-- Conversion of an unsigned count to a C++ `int` (32-bit two's complement, modular). -/
def toInt32 (n : Nat) : Int :=
  ((n : Int) + 2147483648) % 4294967296 - 2147483648

/-- Largest value of a C++ `int`. -/
def INT_MAX : Nat := 2147483647

/-- Conversion of a 64-bit signed value to a C++ `int` (32-bit two's complement, modular), as
in `int rank = ...` initialised from an `sd::LongType`. -/
def narrowInt32 (v : Int) : Int :=
  (v + 2147483648) % 4294967296 - 2147483648

namespace graph

/-! ## `sd::graph::Scope` (Scope.h) -/

/-- A `Node*`: a non-owning reference to a graph-owned node, as an opaque handle. -/
abbrev NodePtr := Nat

/-- The data members of `class Scope`: `int _id`, `std::string _name`,
`std::vector<Node*> _nodes`. -/
structure Scope where
  _id : Int
  _name : String
  _nodes : List NodePtr
  deriving DecidableEq, Repr

namespace Scope

/-- Modelled from the spec: the body of the constructor `Scope(int id, const char* name = nullptr)`
is not part of Scope.h. "create(id, name?) → new scope with empty node list"; the name
"defaults to empty/absent". A null `name` is `none`. -/
def create (id : Int) (name : Option String) : Scope :=
  { _id := id, _name := name.getD "", _nodes := [] }

/-- Modelled from the spec: the body of `void push_back(Node* node)` is not part of Scope.h.
"appends node reference at the end; no uniqueness check". -/
def push_back (s : Scope) (node : NodePtr) : Scope :=
  { s with _nodes := s._nodes ++ [node] }

/-- Modelled from the spec: the body of `std::vector<Node*>* nodes()` is not part of Scope.h.
"returns the live ordered sequence". -/
def nodes (s : Scope) : List NodePtr := s._nodes

/-- Modelled from the spec: the body of `int size()` is not part of Scope.h.
"current node count", returned through the declared result type `int`. -/
def size (s : Scope) : Int := toInt32 s._nodes.length

/-- Modelled from the spec: the body of `int id()` is not part of Scope.h. Accessor. -/
def id (s : Scope) : Int := s._id

/-- Modelled from the spec: the body of `std::string* name()` is not part of Scope.h. Accessor. -/
def name (s : Scope) : String := s._name

/-- Modelled from the spec: the body of `void forgetNodes()` is not part of Scope.h.
"empties the node list in place, preserving id/name". -/
def forgetNodes (s : Scope) : Scope :=
  { s with _nodes := [] }

/-- Successive `push_back` calls with the node references `ns`, first to last. -/
def pushAll (s : Scope) (ns : List NodePtr) : Scope :=
  ns.foldl push_back s

/-- The externally observable state of a scope: `(id(), name(), size(), nodes())`. -/
def observe (s : Scope) : Int × String × Int × List NodePtr :=
  (s.id, s.name, s.size, s.nodes)

end Scope

/-! ### Scope objects on the heap

`clone()` returns a `Scope*` to a newly allocated object, so independence of the
clone from its source is a statement about two heap cells. -/

/-- A `Scope*`: the index of a heap cell. -/
abbrev ScopePtr := Nat

/-- The heap of `Scope` objects; cell `p` holds the object `p` points to. -/
abbrev Heap := List Scope

/-- The mutations of a scope's node list that Scope.h offers. -/
inductive Mutation where
  | push_back (node : NodePtr)
  | forgetNodes
  deriving DecidableEq, Repr

namespace Heap

/-- The call `p->push_back(node)`. -/
def push_back (h : Heap) (p : ScopePtr) (node : NodePtr) : Heap :=
  h.modify (fun s => s.push_back node) p

/-- The call `p->forgetNodes()`. -/
def forgetNodes (h : Heap) (p : ScopePtr) : Heap :=
  h.modify (fun s => s.forgetNodes) p

/-- The node sequence `*p->nodes()`, read at once; `none` when `p` is dangling. -/
def nodes (h : Heap) (p : ScopePtr) : Option (List NodePtr) :=
  h[p]?.map Scope.nodes

/-- Modelled from the spec: the body of `Scope* clone()` is not part of Scope.h.
"produces a new scope with a fresh identity-independent copy of the node-reference list
(shallow — node objects themselves are not duplicated)", with "the same ordered
node-reference list". The new object is allocated in a fresh cell; `none` when `p` is
dangling. -/
def clone (h : Heap) (p : ScopePtr) : Option (Heap × ScopePtr) :=
  match h[p]? with
  | none => none
  | some s => some (h ++ [{ _id := s._id, _name := s._name, _nodes := s._nodes }], h.length)

/-- Apply one mutation to the scope `p` points to. -/
def mutate (h : Heap) (p : ScopePtr) : Mutation → Heap
  | .push_back node => h.push_back p node
  | .forgetNodes => h.forgetNodes p

/-- Apply a sequence of mutations to the scope `p` points to, first to last. -/
def mutateAll (h : Heap) (p : ScopePtr) (ms : List Mutation) : Heap :=
  ms.foldl (fun h m => mutate h p m) h

end Heap

end graph
end sd

/-! ## The dispatch helpers (NativeOpExecutionerHelpers.cpp) -/

namespace sd

/-- A value of `enum sd::DataType`, by its integral value. -/
abbrev DataType := Nat

/-- The type `sd::LongType` (64-bit signed); the helpers do no arithmetic on it. -/
abbrev LongType := Int

/-- A raw buffer pointer (`sd::LongType*`, `void*`, `long long int*`), as an opaque address. -/
abbrev Ptr := Nat

/-- A shape descriptor `const sd::LongType* shapeInfo`, as the contents of the buffer. -/
abbrev ShapeInfo := List LongType

/-- A C++ `float` argument, as its 32-bit pattern; the helpers only pass it on. -/
abbrev CFloat := Nat

/-- Modelled from the spec: class `sd::NDArray` is not in the sources. An operand descriptor is
"raw buffer pointers plus shape/stride metadata (rank, length, ...)" together with "the runtime
element type of the primary operand"; `dataType` is what `x->dataType()` returns. -/
structure NDArray where
  dataType : DataType
  shape : List LongType
  buffer : Ptr
  deriving DecidableEq, Repr

/-- The rank of an array: the number of its axes. -/
def NDArray.rankOf (x : NDArray) : Nat := x.shape.length

/-- What the helpers use and the sources do not define: the type lists `SD_COMMON_TYPES` and
`SD_FLOAT_TYPES`, and the shape-descriptor readers `sd::ArrayOptions::dataType` (the data
type recorded in the descriptor) and `shape::rank` (the rank recorded in the descriptor, an
`sd::LongType` slot of the buffer). -/
structure Config where
  SD_COMMON_TYPES : List DataType
  SD_FLOAT_TYPES : List DataType
  arrayOptionsDataType : ShapeInfo → DataType
  shapeRank : ShapeInfo → LongType

/-- The specialised kernels the helpers call, over a machine state `σ` (the operand buffers)
and kernel-internal errors `ε`. The first argument of a templated kernel is its template
type. A kernel may have written to `σ` before it fails. -/
structure Kernels (σ ε : Type) where
  sortGeneric : DataType → NDArray → Bool → σ → σ × Except ε Unit
  sortTadGeneric : DataType → NDArray → Ptr → LongType → Bool → σ → σ × Except ε Unit
  sortCooIndicesGeneric : DataType → Ptr → Ptr → LongType → Int → σ → σ × Except ε Unit
  ravelMultiIndex : Ptr → Ptr → LongType → ShapeInfo → Int → σ → σ × Except ε Unit
  unravelIndex : Ptr → Ptr → LongType → ShapeInfo → σ → σ × Except ε Unit
  encodeBitmapGeneric : DataType → NDArray → LongType → Ptr → CFloat → σ → σ × Except ε LongType
  decodeBitmapGeneric : DataType → NDArray → NDArray → LongType → σ → σ × Except ε Unit

/-- How a call of a helper can fail: the selector rejects the element type, or the kernel
fails and its error propagates. -/
inductive Failure (ε : Type) where
  | badDataType (xType : DataType)
  | kernel (e : ε)
  deriving DecidableEq, Repr

/-- A kernel's outcome seen by the helper's caller: the state as the kernel left it, its
result or its error, unchanged. -/
def propagate {σ ε ρ : Type} (r : σ × Except ε ρ) : σ × Except (Failure ε) ρ :=
  (r.1, match r.2 with
        | .ok v => .ok v
        | .error e => .error (.kernel e))

/-- Modelled from the spec: the macro `BUILD_SINGLE_SELECTOR(XTYPE, NAME, SIGNATURE, TYPES)` is
not in the sources. "given (operationFamily, elementType), look up the single matching kernel
entry; if elementType is outside the declared supported set for that family, report a dispatch
error (no silent fallback, no implicit narrowing/widening conversion). If found, invoke the
kernel"; kernel errors "propagate unchanged". `body T` stands for `NAME<T>SIGNATURE`. -/
def BUILD_SINGLE_SELECTOR {σ ε ρ : Type} (XTYPE : DataType)
    (body : DataType → σ → σ × Except ε ρ) (TYPES : List DataType) (s : σ) :
    σ × Except (Failure ε) ρ :=
  match TYPES.find? (fun T => T == XTYPE) with
  | some T => propagate (body T s)
  | none => (s, .error (.badDataType XTYPE))

section Helpers

variable {σ ε : Type}

/-- The helper `execSort(sd::NDArray *x, bool descending)`. -/
def execSort (cfg : Config) (K : Kernels σ ε) (x : NDArray) (descending : Bool) :
    σ → σ × Except (Failure ε) Unit :=
  let xType := x.dataType
  BUILD_SINGLE_SELECTOR xType (fun T => K.sortGeneric T x descending) cfg.SD_COMMON_TYPES

/-- The overload `execSort(sd::NDArray *x, sd::LongType *dimension,
sd::LongType dimensionLength, bool descending)`. -/
def execSortTad (cfg : Config) (K : Kernels σ ε) (x : NDArray) (dimension : Ptr)
    (dimensionLength : LongType) (descending : Bool) : σ → σ × Except (Failure ε) Unit :=
  let xType := x.dataType
  BUILD_SINGLE_SELECTOR xType
    (fun T => K.sortTadGeneric T x dimension dimensionLength descending) cfg.SD_COMMON_TYPES

/-- The helper `execSortCooIndices(sd::LongType *indices, void *x, sd::LongType length,
const sd::LongType *xShapeInfo)`; `int rank = shape::rank(xShapeInfo)` narrows the recorded
rank to 32 bits. -/
def execSortCooIndices (cfg : Config) (K : Kernels σ ε) (indices : Ptr) (x : Ptr)
    (length : LongType) (xShapeInfo : ShapeInfo) : σ → σ × Except (Failure ε) Unit :=
  let xType := cfg.arrayOptionsDataType xShapeInfo
  let rank := narrowInt32 (cfg.shapeRank xShapeInfo)
  BUILD_SINGLE_SELECTOR xType
    (fun T => K.sortCooIndicesGeneric T indices x length rank) cfg.SD_COMMON_TYPES

/-- The helper `execRavelMultiIndex(sd::LongType *indices, sd::LongType *flatIndices,
sd::LongType length, sd::LongType *shapeInfo, int mode)`. -/
def execRavelMultiIndex (K : Kernels σ ε) (indices flatIndices : Ptr) (length : LongType)
    (shapeInfo : ShapeInfo) (mode : Int) : σ → σ × Except (Failure ε) Unit :=
  fun s => propagate (K.ravelMultiIndex indices flatIndices length shapeInfo mode s)

/-- The helper `execUnravelIndex(sd::LongType *indices, sd::LongType *flatIndices,
sd::LongType length, sd::LongType *shapeInfo)`. -/
def execUnravelIndex (K : Kernels σ ε) (indices flatIndices : Ptr) (length : LongType)
    (shapeInfo : ShapeInfo) : σ → σ × Except (Failure ε) Unit :=
  fun s => propagate (K.unravelIndex indices flatIndices length shapeInfo s)

/-- The helper `encodeBitmap(sd::NDArray *x, sd::LongType N, long long int *dz,
float threshold)`; the selector's `NAME` is `return sd::SpecialMethods`. -/
def encodeBitmap (cfg : Config) (K : Kernels σ ε) (x : NDArray) (N : LongType) (dz : Ptr)
    (threshold : CFloat) : σ → σ × Except (Failure ε) LongType :=
  let xType := x.dataType
  BUILD_SINGLE_SELECTOR xType
    (fun T => K.encodeBitmapGeneric T x N dz threshold) cfg.SD_FLOAT_TYPES

/-- The helper `decodeBitmap(sd::NDArray *dx, sd::LongType N, sd::NDArray *z)`. -/
def decodeBitmap (cfg : Config) (K : Kernels σ ε) (dx : NDArray) (N : LongType) (z : NDArray) :
    σ → σ × Except (Failure ε) Unit :=
  let zType := z.dataType
  BUILD_SINGLE_SELECTOR zType (fun T => K.decodeBitmapGeneric T dx z N) cfg.SD_FLOAT_TYPES

end Helpers

/-! ### Requests, kernel invocations and the recording kernels -/

/-- The operation families served by the helpers. -/
inductive OpFamily where
  | fullSort
  | tadSort
  | cooSort
  | ravel
  | unravel
  | bitmapEncode
  | bitmapDecode
  deriving DecidableEq, Repr

/-- One invocation of a kernel: which kernel, at which template type, with which arguments
(in the order of the call in the helper). -/
inductive KernelCall where
  | sortGeneric (T : DataType) (x : NDArray) (descending : Bool)
  | sortTadGeneric (T : DataType) (x : NDArray) (dimension : Ptr) (dimensionLength : LongType)
      (descending : Bool)
  | sortCooIndicesGeneric (T : DataType) (indices : Ptr) (x : Ptr) (length : LongType)
      (rank : Int)
  | ravelMultiIndex (indices flatIndices : Ptr) (length : LongType) (shapeInfo : ShapeInfo)
      (mode : Int)
  | unravelIndex (indices flatIndices : Ptr) (length : LongType) (shapeInfo : ShapeInfo)
  | encodeBitmapGeneric (T : DataType) (x : NDArray) (N : LongType) (dz : Ptr)
      (threshold : CFloat)
  | decodeBitmapGeneric (T : DataType) (dx : NDArray) (z : NDArray) (N : LongType)
  deriving DecidableEq, Repr

/-- The family a kernel belongs to. -/
def KernelCall.family : KernelCall → OpFamily
  | .sortGeneric .. => .fullSort
  | .sortTadGeneric .. => .tadSort
  | .sortCooIndicesGeneric .. => .cooSort
  | .ravelMultiIndex .. => .ravel
  | .unravelIndex .. => .unravel
  | .encodeBitmapGeneric .. => .bitmapEncode
  | .decodeBitmapGeneric .. => .bitmapDecode

/-- The template type a kernel is instantiated at; the ravel and unravel kernels are not
templates. -/
def KernelCall.templateType : KernelCall → Option DataType
  | .sortGeneric T .. => some T
  | .sortTadGeneric T .. => some T
  | .sortCooIndicesGeneric T .. => some T
  | .ravelMultiIndex .. => none
  | .unravelIndex .. => none
  | .encodeBitmapGeneric T .. => some T
  | .decodeBitmapGeneric T .. => some T

/-- Which kernel was selected, the arguments apart. -/
def KernelCall.selected (c : KernelCall) : OpFamily × Option DataType :=
  (c.family, c.templateType)

/-- Mock kernels that only count and record: each appends its own invocation to the trace,
touches nothing else and succeeds (`encodeBitmapGeneric` returning `encoded`). -/
def recorder (encoded : LongType) : Kernels (List KernelCall) Empty where
  sortGeneric T x descending tr := (tr ++ [.sortGeneric T x descending], .ok ())
  sortTadGeneric T x dimension dimensionLength descending tr :=
    (tr ++ [.sortTadGeneric T x dimension dimensionLength descending], .ok ())
  sortCooIndicesGeneric T indices x length rank tr :=
    (tr ++ [.sortCooIndicesGeneric T indices x length rank], .ok ())
  ravelMultiIndex indices flatIndices length shapeInfo mode tr :=
    (tr ++ [.ravelMultiIndex indices flatIndices length shapeInfo mode], .ok ())
  unravelIndex indices flatIndices length shapeInfo tr :=
    (tr ++ [.unravelIndex indices flatIndices length shapeInfo], .ok ())
  encodeBitmapGeneric T x N dz threshold tr :=
    (tr ++ [.encodeBitmapGeneric T x N dz threshold], .ok encoded)
  decodeBitmapGeneric T dx z N tr := (tr ++ [.decodeBitmapGeneric T dx z N], .ok ())

/-- A call of one of the seven helpers, with the arguments the caller passes. -/
inductive Request where
  | execSort (x : NDArray) (descending : Bool)
  | execSortTad (x : NDArray) (dimension : Ptr) (dimensionLength : LongType)
      (descending : Bool)
  | execSortCooIndices (indices : Ptr) (x : Ptr) (length : LongType) (xShapeInfo : ShapeInfo)
  | execRavelMultiIndex (indices flatIndices : Ptr) (length : LongType)
      (shapeInfo : ShapeInfo) (mode : Int)
  | execUnravelIndex (indices flatIndices : Ptr) (length : LongType) (shapeInfo : ShapeInfo)
  | encodeBitmap (x : NDArray) (N : LongType) (dz : Ptr) (threshold : CFloat)
  | decodeBitmap (dx : NDArray) (N : LongType) (z : NDArray)
  deriving DecidableEq, Repr

namespace Request

/-- The family a helper serves. -/
def family : Request → OpFamily
  | .execSort .. => .fullSort
  | .execSortTad .. => .tadSort
  | .execSortCooIndices .. => .cooSort
  | .execRavelMultiIndex .. => .ravel
  | .execUnravelIndex .. => .unravel
  | .encodeBitmap .. => .bitmapEncode
  | .decodeBitmap .. => .bitmapDecode

/-- The element type of the operand a request is about: of `x` for the sorts and the encoder,
of the tensor described by `xShapeInfo` for the sparse sort, of the output `z` for the
decoder. Ravel and unravel work on `sd::LongType` index buffers and carry no element type. -/
def elementType (cfg : Config) : Request → Option DataType
  | .execSort x _ => some x.dataType
  | .execSortTad x _ _ _ => some x.dataType
  | .execSortCooIndices _ _ _ xShapeInfo => some (cfg.arrayOptionsDataType xShapeInfo)
  | .execRavelMultiIndex .. => none
  | .execUnravelIndex .. => none
  | .encodeBitmap x _ _ _ => some x.dataType
  | .decodeBitmap _ _ z => some z.dataType

/-- The operand descriptors are malformed in a way that can be seen before any kernel runs:
more sort dimensions than `x` has axes, or a negative count. -/
def malformed : Request → Bool
  | .execSort _ _ => false
  | .execSortTad x _ dimensionLength _ =>
      decide (dimensionLength < 0) || decide ((x.rankOf : Int) < dimensionLength)
  | .execSortCooIndices _ _ length _ => decide (length < 0)
  | .execRavelMultiIndex _ _ length _ _ => decide (length < 0)
  | .execUnravelIndex _ _ length _ => decide (length < 0)
  | .encodeBitmap _ N _ _ => decide (N < 0)
  | .decodeBitmap _ N _ => decide (N < 0)

end Request

/-- The supported element types of a family: the type list its helper hands to the selector.
The ravel and unravel helpers have no selector and no type list. -/
def OpFamily.supported (cfg : Config) : OpFamily → Option (List DataType)
  | .fullSort => some cfg.SD_COMMON_TYPES
  | .tadSort => some cfg.SD_COMMON_TYPES
  | .cooSort => some cfg.SD_COMMON_TYPES
  | .ravel => none
  | .unravel => none
  | .bitmapEncode => some cfg.SD_FLOAT_TYPES
  | .bitmapDecode => some cfg.SD_FLOAT_TYPES

/-- The request's element type is in the supported set of its family (always so for a family
without a type list). -/
def Request.typeSupported (cfg : Config) (r : Request) : Prop :=
  ∀ T L, r.elementType cfg = some T → r.family.supported cfg = some L → T ∈ L

/-- The request's element type is outside the supported set of its family. -/
def Request.typeUnsupported (cfg : Config) (r : Request) : Prop :=
  ∃ T L, r.elementType cfg = some T ∧ r.family.supported cfg = some L ∧ T ∉ L

/-- Forget the result of a helper that returns `void`. -/
def noValue {σ ε : Type} (r : σ × Except (Failure ε) Unit) :
    σ × Except (Failure ε) (Option LongType) :=
  (r.1, r.2.map (fun _ => none))

/-- Keep the result of a helper that returns a value. -/
def withValue {σ ε : Type} (r : σ × Except (Failure ε) LongType) :
    σ × Except (Failure ε) (Option LongType) :=
  (r.1, r.2.map some)

/-- Perform a request: call the helper it names with its arguments. -/
def dispatch {σ ε : Type} (cfg : Config) (K : Kernels σ ε) :
    Request → σ → σ × Except (Failure ε) (Option LongType)
  | .execSort x descending, s => noValue (execSort cfg K x descending s)
  | .execSortTad x dimension dimensionLength descending, s =>
      noValue (execSortTad cfg K x dimension dimensionLength descending s)
  | .execSortCooIndices indices x length xShapeInfo, s =>
      noValue (execSortCooIndices cfg K indices x length xShapeInfo s)
  | .execRavelMultiIndex indices flatIndices length shapeInfo mode, s =>
      noValue (execRavelMultiIndex K indices flatIndices length shapeInfo mode s)
  | .execUnravelIndex indices flatIndices length shapeInfo, s =>
      noValue (execUnravelIndex K indices flatIndices length shapeInfo s)
  | .encodeBitmap x N dz threshold, s => withValue (encodeBitmap cfg K x N dz threshold s)
  | .decodeBitmap dx N z, s => noValue (decodeBitmap cfg K dx N z s)

/-- The call did not fail. -/
def succeeded {σ ε ρ : Type} (r : σ × Except ε ρ) : Bool :=
  match r.2 with
  | .ok _ => true
  | .error _ => false

/-- What a run with the recording kernels selected: for each invocation in the trace its
kernel and template type (the arguments apart), and whether the call succeeded. -/
def selection {ε ρ : Type} (r : List KernelCall × Except ε ρ) :
    List (OpFamily × Option DataType) × Bool :=
  (r.1.map KernelCall.selected, succeeded r)

/-- A configuration for the examples: element types 5 and 6 are common types, 5 is a float
type; a shape descriptor holds its rank in slot 0 and its element type in its last slot. -/
def exampleConfig : Config where
  SD_COMMON_TYPES := [5, 6]
  SD_FLOAT_TYPES := [5]
  arrayOptionsDataType si := (si.getLastD 0).toNat
  shapeRank si := si.headD 0

end sd

/-! ## The index kernels behind `execRavelMultiIndex` and `execUnravelIndex` -/

namespace sd.sparse.IndexUtils

/-- Modelled from the spec: the out-of-bounds handling modes of multi-index ravel are not in
the sources. "a mode selecting out-of-bounds handling (e.g., clamp / wrap / raise)". -/
inductive ClipMode where
  | clamp
  | wrap
  | raise
  deriving DecidableEq, Repr

/-- A multi-index is in bounds for a shape: it has one coordinate per axis and each
coordinate `c_k` satisfies `0 <= c_k < shape_k`. -/
def inBounds : (shape index : List Int) → Bool
  | [], [] => true
  | d :: ds, c :: cs => decide (0 ≤ c) && decide (c < d) && inBounds ds cs
  | _, _ => false

/-- Modelled from the spec: the per-coordinate part of `ravelMultiIndex` is not in the
sources. A coordinate in bounds is kept; one out of bounds is handled as the mode says
(clamped into the axis, wrapped modulo the axis length, or raised as an error). -/
def adjust (mode : ClipMode) (dim idx : Int) : Option Int :=
  if 0 ≤ idx ∧ idx < dim then some idx
  else
    match mode with
    | .clamp => some (if idx < 0 then 0 else dim - 1)
    | .wrap => some (idx % dim)
    | .raise => none

/-- Modelled from the spec: the body of `sd::sparse::IndexUtils::ravelMultiIndex` is not in
the sources. One multi-index is turned into its "flat linear index" for the shape, in
"row-major multi-index order": the coordinate of an axis is weighted by the number of
elements of the axes after it. `none` when the mode raises or the ranks differ. -/
def ravelOne (mode : ClipMode) : (shape index : List Int) → Option Int
  | [], [] => some 0
  | d :: ds, c :: cs =>
    match adjust mode d c, ravelOne mode ds cs with
    | some c', some rest => some (c' * ds.prod + rest)
    | _, _ => none
  | _, _ => none

/-- Modelled from the spec: the body of `sd::sparse::IndexUtils::unravelIndex` is not in the
sources. One flat index is turned into the multi-index for the shape: for each axis in turn,
how many whole strides of that axis fit, the remainder going to the axes after it. -/
def unravelOne : (shape : List Int) → (flat : Int) → List Int
  | [], _ => []
  | _ :: ds, flat => flat / ds.prod :: unravelOne ds (flat % ds.prod)

/-- Modelled from the spec: `ravelMultiIndex` over the index buffer, given as the list of its
multi-indices: "Output: flat linear indices. Must apply mode consistently per element." -/
def ravelMultiIndex (shape : List Int) (mode : ClipMode) :
    (indices : List (List Int)) → Option (List Int)
  | [] => some []
  | index :: rest =>
    match ravelOne mode shape index, ravelMultiIndex shape mode rest with
    | some flat, some flats => some (flat :: flats)
    | _, _ => none

/-- Modelled from the spec: `unravelIndex` over the flat index buffer: "Output:
multi-dimensional index buffer." -/
def unravelIndex (shape : List Int) (flatIndices : List Int) : List (List Int) :=
  flatIndices.map (unravelOne shape)

end sd.sparse.IndexUtils

/-! ## Theorems: `Scope` -/

namespace sd.graph

theorem Scope.nodes_pushAll (s : Scope) (ns : List NodePtr) :
    (s.pushAll ns).nodes = s.nodes ++ ns := by
  induction ns generalizing s with
  | nil => simp [Scope.pushAll, Scope.nodes]
  | cons n ns ih =>
    have h := ih (s.push_back n)
    simp only [Scope.pushAll, List.foldl_cons] at h ⊢
    rw [h]
    simp [Scope.push_back, Scope.nodes]

theorem Scope.id_pushAll (s : Scope) (ns : List NodePtr) : (s.pushAll ns).id = s.id := by
  induction ns generalizing s with
  | nil => rfl
  | cons n ns ih =>
    have h := ih (s.push_back n)
    simp only [Scope.pushAll, List.foldl_cons] at h ⊢
    rw [h]
    rfl

theorem Scope.name_pushAll (s : Scope) (ns : List NodePtr) : (s.pushAll ns).name = s.name := by
  induction ns generalizing s with
  | nil => rfl
  | cons n ns ih =>
    have h := ih (s.push_back n)
    simp only [Scope.pushAll, List.foldl_cons] at h ⊢
    rw [h]
    rfl

theorem toInt32_of_le (n : Nat) (h : n ≤ INT_MAX) : toInt32 n = n := by
  unfold toInt32
  unfold INT_MAX at h
  omega

theorem Heap.nodes_mutate_of_ne (g : Heap) (p q : ScopePtr) (m : Mutation) (hpq : p ≠ q) :
    Heap.nodes (Heap.mutate g q m) p = Heap.nodes g p := by
  cases m <;>
    simp [Heap.mutate, Heap.push_back, Heap.forgetNodes, Heap.nodes, List.getElem?_modify,
      Ne.symm hpq]

theorem Heap.nodes_mutateAll_of_ne (g : Heap) (p q : ScopePtr) (ms : List Mutation)
    (hpq : p ≠ q) : Heap.nodes (Heap.mutateAll g q ms) p = Heap.nodes g p := by
  induction ms generalizing g with
  | nil => rfl
  | cons m ms ih =>
    have h := ih (Heap.mutate g q m)
    simp only [Heap.mutateAll, List.foldl_cons] at h ⊢
    rw [h, Heap.nodes_mutate_of_ne g p q m hpq]

theorem Scope.nodes_create_pushAll (id : Int) (name : Option String) (ns : List NodePtr) :
    ((Scope.create id name).pushAll ns).nodes = ns := by
  rw [Scope.nodes_pushAll]; simp [Scope.create, Scope.nodes]

theorem Scope.size_eq (s : Scope) : s.size = toInt32 s.nodes.length := rfl

theorem Scope.size_create_pushAll (id : Int) (name : Option String) (ns : List NodePtr) :
    ((Scope.create id name).pushAll ns).size = toInt32 ns.length := by
  rw [Scope.size_eq, Scope.nodes_create_pushAll]

/-- C1, as the code has it: from a freshly created scope, after `push_back` of `n1..nk`
(duplicates allowed, `k` possibly 0) `nodes()` is exactly `n1..nk` in append order, with `k`
elements, for every `k`; and `size()` returns `k` whenever `k` fits the `int` that `size()`
returns (`k ≤ INT_MAX`). -/
theorem Scope.push_back_sequence (id : Int) (name : Option String) (ns : List NodePtr) :
    ((Scope.create id name).pushAll ns).nodes = ns ∧
    ((Scope.create id name).pushAll ns).nodes.length = ns.length ∧
    (∀ i : Nat, ((Scope.create id name).pushAll ns).nodes[i]? = ns[i]?) ∧
    (ns.length ≤ INT_MAX → ((Scope.create id name).pushAll ns).size = (ns.length : Int)) := by
  have hn := Scope.nodes_create_pushAll id name ns
  refine ⟨hn, by rw [hn], fun i => by rw [hn], fun hk => ?_⟩
  rw [Scope.size_create_pushAll, toInt32_of_le _ hk]

/-- Witness of C1 (amended): scope 1 "loop_body" after appending nodes 10, 11, 10. -/
theorem Scope.push_back_sequence_witness :
    ((Scope.create 1 (some "loop_body")).pushAll [10, 11, 10]).nodes = [10, 11, 10] ∧
    ((Scope.create 1 (some "loop_body")).pushAll [10, 11, 10]).size = 3 :=
  ⟨(Scope.push_back_sequence 1 (some "loop_body") [10, 11, 10]).1,
   (Scope.push_back_sequence 1 (some "loop_body") [10, 11, 10]).2.2.2 (by decide)⟩

/-- C1 as stated fails: after 2147483648 `push_back` calls on a fresh scope, `nodes()` has
2147483648 elements and `size()`, an `int`, does not return 2147483648. -/
theorem Scope.size_overflow_counterexample :
    ((Scope.create 0 none).pushAll (List.replicate 2147483648 7)).nodes.length = 2147483648 ∧
    ((Scope.create 0 none).pushAll (List.replicate 2147483648 7)).size = -2147483648 ∧
    ((Scope.create 0 none).pushAll (List.replicate 2147483648 7)).size ≠ 2147483648 := by
  have hl : (List.replicate 2147483648 (7 : NodePtr)).length = 2147483648 :=
    List.length_replicate _ _
  have hv : toInt32 2147483648 = -2147483648 := by unfold toInt32; norm_num
  generalize List.replicate 2147483648 (7 : NodePtr) = ns at hl ⊢
  rw [Scope.size_create_pushAll, Scope.nodes_create_pushAll, hl, hv]
  exact ⟨rfl, rfl, by norm_num⟩

/-- C2: for every scope object `p`, `clone()` succeeds and returns a new object `q` whose node
sequence equals that of `p` at the moment of cloning (same references, same order, same
length), leaving `p` as it was; and in every later heap a `push_back` or `forgetNodes` on the
clone, or any sequence of them, leaves the node sequence of `p` unchanged, and vice versa. -/
theorem Heap.clone_independent (h : Heap) (p : ScopePtr) (hp : p < h.length) :
    ∃ h' q, Heap.clone h p = some (h', q) ∧
      (Heap.nodes h p).isSome ∧
      Heap.nodes h' q = Heap.nodes h p ∧
      Heap.nodes h' p = Heap.nodes h p ∧
      (∀ g m, Heap.nodes (Heap.mutate g q m) p = Heap.nodes g p) ∧
      (∀ g m, Heap.nodes (Heap.mutate g p m) q = Heap.nodes g q) ∧
      (∀ ms, Heap.nodes (Heap.mutateAll h' q ms) p = Heap.nodes h p) ∧
      (∀ ms, Heap.nodes (Heap.mutateAll h' p ms) q = Heap.nodes h p) := by
  have hne : p ≠ h.length := Nat.ne_of_lt hp
  obtain ⟨s, hget⟩ : ∃ s, h[p]? = some s := ⟨h[p], List.getElem?_eq_getElem hp⟩
  have hq : Heap.nodes (h ++ [⟨s._id, s._name, s._nodes⟩]) h.length = Heap.nodes h p := by
    simp [Heap.nodes, hget, Scope.nodes]
  have hp' : Heap.nodes (h ++ [⟨s._id, s._name, s._nodes⟩]) p = Heap.nodes h p := by
    simp [Heap.nodes, List.getElem?_append_left hp]
  refine ⟨_, h.length, ?_, ?_, hq, hp', ?_, ?_, ?_, ?_⟩
  · simp only [Heap.clone, hget]
  · simp [Heap.nodes, hget]
  · intro g m; exact Heap.nodes_mutate_of_ne g p h.length m hne
  · intro g m; exact Heap.nodes_mutate_of_ne g h.length p m (Ne.symm hne)
  · intro ms; rw [Heap.nodes_mutateAll_of_ne _ p h.length ms hne, hp']
  · intro ms; rw [Heap.nodes_mutateAll_of_ne _ h.length p ms (Ne.symm hne), hq]

/-- Witness of C2: a heap with one scope holding nodes 10 and 11, cloned. -/
theorem Heap.clone_independent_witness :
    ∃ h' q, Heap.clone ([⟨1, "body", [10, 11]⟩] : Heap) 0 = some (h', q) ∧
      (Heap.nodes ([⟨1, "body", [10, 11]⟩] : Heap) 0).isSome ∧
      Heap.nodes h' q = Heap.nodes ([⟨1, "body", [10, 11]⟩] : Heap) 0 ∧
      Heap.nodes h' 0 = Heap.nodes ([⟨1, "body", [10, 11]⟩] : Heap) 0 ∧
      (∀ g m, Heap.nodes (Heap.mutate g q m) 0 = Heap.nodes g 0) ∧
      (∀ g m, Heap.nodes (Heap.mutate g 0 m) q = Heap.nodes g q) ∧
      (∀ ms, Heap.nodes (Heap.mutateAll h' q ms) 0
        = Heap.nodes ([⟨1, "body", [10, 11]⟩] : Heap) 0) ∧
      (∀ ms, Heap.nodes (Heap.mutateAll h' 0 ms) q
        = Heap.nodes ([⟨1, "body", [10, 11]⟩] : Heap) 0) :=
  Heap.clone_independent ([⟨1, "body", [10, 11]⟩] : Heap) 0 Nat.zero_lt_one

/-- C3: for every scope `s` (empty or populated) and every node references `n1..nk`,
`forgetNodes()` followed by `push_back(n1)..push_back(nk)` gives the same observable state
`(id(), name(), size(), nodes())` as a fresh `Scope(s.id(), s.name())` followed by the same
`push_back` calls; `forgetNodes()` alone gives `size() == 0` with `id()` and `name()`
unchanged. -/
theorem Scope.forgetNodes_as_fresh (s : Scope) (ns : List NodePtr) :
    (s.forgetNodes.pushAll ns).observe
      = ((Scope.create s.id (some s.name)).pushAll ns).observe ∧
    s.forgetNodes.size = 0 ∧ s.forgetNodes.nodes = [] ∧
    s.forgetNodes.id = s.id ∧ s.forgetNodes.name = s.name := by
  have h0 : s.forgetNodes.size = 0 := by
    rw [Scope.size_eq]
    exact toInt32_of_le 0 (Nat.zero_le _)
  refine ⟨?_, h0, rfl, rfl, rfl⟩
  simp only [Scope.observe, Scope.size_eq, Scope.nodes_pushAll, Scope.id_pushAll,
    Scope.name_pushAll]
  rfl

end sd.graph

/-! ## Theorems: the dispatch helpers -/

namespace sd

section Selector

variable {σ ε ρ : Type}

theorem BUILD_SINGLE_SELECTOR_of_mem (XTYPE : DataType) (body : DataType → σ → σ × Except ε ρ)
    (TYPES : List DataType) (s : σ) (h : XTYPE ∈ TYPES) :
    BUILD_SINGLE_SELECTOR XTYPE body TYPES s = propagate (body XTYPE s) := by
  unfold BUILD_SINGLE_SELECTOR
  cases hf : TYPES.find? (fun T => T == XTYPE) with
  | none =>
    have := List.find?_eq_none.mp hf XTYPE h
    simp at this
  | some T =>
    have hT := List.find?_some hf
    have : T = XTYPE := by simpa using hT
    subst this
    rfl

theorem BUILD_SINGLE_SELECTOR_of_not_mem (XTYPE : DataType)
    (body : DataType → σ → σ × Except ε ρ) (TYPES : List DataType) (s : σ)
    (h : XTYPE ∉ TYPES) :
    BUILD_SINGLE_SELECTOR XTYPE body TYPES s = (s, .error (.badDataType XTYPE)) := by
  unfold BUILD_SINGLE_SELECTOR
  cases hf : TYPES.find? (fun T => T == XTYPE) with
  | none => rfl
  | some T =>
    have hT := List.find?_some hf
    have hm := List.mem_of_find?_eq_some hf
    have : T = XTYPE := by simpa using hT
    subst this
    exact absurd hm h

end Selector

theorem Request.typeSupported_or_typeUnsupported (cfg : Config) (r : Request) :
    r.typeSupported cfg ∨ r.typeUnsupported cfg := by
  by_cases h : r.typeUnsupported cfg
  · exact Or.inr h
  · refine Or.inl (fun T L hT hL => ?_)
    by_contra hn
    exact h ⟨T, L, hT, hL, hn⟩

/-- What a request does with the recording kernels when its element type is supported: the
trace grows by exactly one invocation, of the kernel of the request's family instantiated at
the request's element type, and the call succeeds. -/
theorem dispatch_recorder_of_typeSupported (cfg : Config) (r : Request)
    (h : r.typeSupported cfg) (encoded : LongType) (tr : List KernelCall) :
    ∃ c, (dispatch cfg (recorder encoded) r tr).1 = tr ++ [c] ∧
      succeeded (dispatch cfg (recorder encoded) r tr) = true ∧
      c.family = r.family ∧ c.templateType = r.elementType cfg := by
  cases r with
  | execSort x descending =>
    have hm : x.dataType ∈ cfg.SD_COMMON_TYPES := h _ _ rfl rfl
    exact ⟨.sortGeneric x.dataType x descending, by
      simp [dispatch, execSort, BUILD_SINGLE_SELECTOR_of_mem _ _ _ _ hm, noValue, propagate,
        recorder, succeeded, KernelCall.family, KernelCall.templateType, Request.family,
        Request.elementType, Except.map]⟩
  | execSortTad x dimension dimensionLength descending =>
    have hm : x.dataType ∈ cfg.SD_COMMON_TYPES := h _ _ rfl rfl
    exact ⟨.sortTadGeneric x.dataType x dimension dimensionLength descending, by
      simp [dispatch, execSortTad, BUILD_SINGLE_SELECTOR_of_mem _ _ _ _ hm, noValue, propagate,
        recorder, succeeded, KernelCall.family, KernelCall.templateType, Request.family,
        Request.elementType, Except.map]⟩
  | execSortCooIndices indices x length xShapeInfo =>
    have hm : cfg.arrayOptionsDataType xShapeInfo ∈ cfg.SD_COMMON_TYPES := h _ _ rfl rfl
    exact ⟨.sortCooIndicesGeneric (cfg.arrayOptionsDataType xShapeInfo) indices x length
      (narrowInt32 (cfg.shapeRank xShapeInfo)), by
      simp [dispatch, execSortCooIndices, BUILD_SINGLE_SELECTOR_of_mem _ _ _ _ hm, noValue,
        propagate, recorder, succeeded, KernelCall.family, KernelCall.templateType,
        Request.family, Request.elementType, Except.map]⟩
  | execRavelMultiIndex indices flatIndices length shapeInfo mode =>
    exact ⟨.ravelMultiIndex indices flatIndices length shapeInfo mode, by
      simp [dispatch, execRavelMultiIndex, noValue, propagate, recorder, succeeded,
        KernelCall.family, KernelCall.templateType, Request.family, Request.elementType,
        Except.map]⟩
  | execUnravelIndex indices flatIndices length shapeInfo =>
    exact ⟨.unravelIndex indices flatIndices length shapeInfo, by
      simp [dispatch, execUnravelIndex, noValue, propagate, recorder, succeeded,
        KernelCall.family, KernelCall.templateType, Request.family, Request.elementType,
        Except.map]⟩
  | encodeBitmap x N dz threshold =>
    have hm : x.dataType ∈ cfg.SD_FLOAT_TYPES := h _ _ rfl rfl
    exact ⟨.encodeBitmapGeneric x.dataType x N dz threshold, by
      simp [dispatch, encodeBitmap, BUILD_SINGLE_SELECTOR_of_mem _ _ _ _ hm, withValue,
        propagate, recorder, succeeded, KernelCall.family, KernelCall.templateType,
        Request.family, Request.elementType, Except.map]⟩
  | decodeBitmap dx N z =>
    have hm : z.dataType ∈ cfg.SD_FLOAT_TYPES := h _ _ rfl rfl
    exact ⟨.decodeBitmapGeneric z.dataType dx z N, by
      simp [dispatch, decodeBitmap, BUILD_SINGLE_SELECTOR_of_mem _ _ _ _ hm, noValue,
        propagate, recorder, succeeded, KernelCall.family, KernelCall.templateType,
        Request.family, Request.elementType, Except.map]⟩

/-- What a request does, with any kernels, when its element type is unsupported: the state is
left as it was and the call fails with the selector's bad-data-type error. -/
theorem dispatch_of_typeUnsupported {σ ε : Type} (cfg : Config) (K : Kernels σ ε)
    (r : Request) (h : r.typeUnsupported cfg) (s : σ) :
    ∃ T, r.elementType cfg = some T ∧ dispatch cfg K r s = (s, .error (.badDataType T)) := by
  obtain ⟨T, L, hT, hL, hn⟩ := h
  cases r with
  | execSort x descending =>
    simp only [Request.elementType, Request.family, OpFamily.supported, Option.some.injEq]
      at hT hL
    subst hT hL
    exact ⟨_, rfl, by
      simp [dispatch, execSort, BUILD_SINGLE_SELECTOR_of_not_mem _ _ _ _ hn, noValue,
        Except.map]⟩
  | execSortTad x dimension dimensionLength descending =>
    simp only [Request.elementType, Request.family, OpFamily.supported, Option.some.injEq]
      at hT hL
    subst hT hL
    exact ⟨_, rfl, by
      simp [dispatch, execSortTad, BUILD_SINGLE_SELECTOR_of_not_mem _ _ _ _ hn, noValue,
        Except.map]⟩
  | execSortCooIndices indices x length xShapeInfo =>
    simp only [Request.elementType, Request.family, OpFamily.supported, Option.some.injEq]
      at hT hL
    subst hT hL
    exact ⟨_, rfl, by
      simp [dispatch, execSortCooIndices, BUILD_SINGLE_SELECTOR_of_not_mem _ _ _ _ hn, noValue,
        Except.map]⟩
  | execRavelMultiIndex indices flatIndices length shapeInfo mode =>
    simp [Request.elementType] at hT
  | execUnravelIndex indices flatIndices length shapeInfo =>
    simp [Request.elementType] at hT
  | encodeBitmap x N dz threshold =>
    simp only [Request.elementType, Request.family, OpFamily.supported, Option.some.injEq]
      at hT hL
    subst hT hL
    exact ⟨_, rfl, by
      simp [dispatch, encodeBitmap, BUILD_SINGLE_SELECTOR_of_not_mem _ _ _ _ hn, withValue,
        Except.map]⟩
  | decodeBitmap dx N z =>
    simp only [Request.elementType, Request.family, OpFamily.supported, Option.some.injEq]
      at hT hL
    subst hT hL
    exact ⟨_, rfl, by
      simp [dispatch, decodeBitmap, BUILD_SINGLE_SELECTOR_of_not_mem _ _ _ _ hn, noValue,
        Except.map]⟩

theorem selection_selector_congr {ρ ρ' : Type} (XTYPE : DataType) (TYPES : List DataType)
    (tr : List KernelCall)
    (body : DataType → List KernelCall → List KernelCall × Except Empty ρ)
    (body' : DataType → List KernelCall → List KernelCall × Except Empty ρ')
    (hb : selection (propagate (body XTYPE tr)) = selection (propagate (body' XTYPE tr))) :
    selection (BUILD_SINGLE_SELECTOR XTYPE body TYPES tr)
      = selection (BUILD_SINGLE_SELECTOR XTYPE body' TYPES tr) := by
  by_cases hm : XTYPE ∈ TYPES
  · rw [BUILD_SINGLE_SELECTOR_of_mem _ _ _ _ hm, BUILD_SINGLE_SELECTOR_of_mem _ _ _ _ hm, hb]
  · rw [BUILD_SINGLE_SELECTOR_of_not_mem _ _ _ _ hm, BUILD_SINGLE_SELECTOR_of_not_mem _ _ _ _ hm]
    rfl

/-- C4: for every call of one of the seven helpers whose element type is in the supported set
of its family (the ravel and unravel helpers take no element type and are always so), the call
succeeds and exactly one kernel is invoked: the kernel of that family, instantiated at that
element type. -/
theorem dispatch_total (cfg : Config) (r : Request) (h : r.typeSupported cfg)
    (encoded : LongType) (tr : List KernelCall) :
    ∃ c, (dispatch cfg (recorder encoded) r tr).1 = tr ++ [c] ∧
      succeeded (dispatch cfg (recorder encoded) r tr) = true ∧
      c.family = r.family ∧ c.templateType = r.elementType cfg :=
  dispatch_recorder_of_typeSupported cfg r h encoded tr

/-- Witness of C4: bitmap decoding into an output tensor of the float type 5. -/
theorem dispatch_total_witness :
    ∃ c, (dispatch exampleConfig (recorder 0) (.decodeBitmap ⟨6, [4], 100⟩ 4 ⟨5, [4], 200⟩) []).1
        = [] ++ [c] ∧
      succeeded (dispatch exampleConfig (recorder 0)
        (.decodeBitmap ⟨6, [4], 100⟩ 4 ⟨5, [4], 200⟩) []) = true ∧
      c.family = (Request.decodeBitmap ⟨6, [4], 100⟩ 4 ⟨5, [4], 200⟩).family ∧
      c.templateType
        = (Request.decodeBitmap ⟨6, [4], 100⟩ 4 ⟨5, [4], 200⟩).elementType exampleConfig :=
  dispatch_total exampleConfig (.decodeBitmap ⟨6, [4], 100⟩ 4 ⟨5, [4], 200⟩)
    (fun T L hT hL => by
      simp only [Request.elementType, Request.family, OpFamily.supported, exampleConfig,
        Option.some.injEq] at hT hL
      subst hT hL
      decide)
    0 []

/-- C5: for every call of a helper whose element type is outside the supported set of its
family, whatever the kernels are, the call fails with the bad-data-type error for that type
and leaves the state (all operand buffers) as it was; with the recording kernels the trace is
unchanged: no kernel is invoked. -/
theorem unsupported_type_rejected {σ ε : Type} (cfg : Config) (K : Kernels σ ε) (r : Request)
    (h : r.typeUnsupported cfg) (s : σ) :
    (dispatch cfg K r s).1 = s ∧
    (∃ T, r.elementType cfg = some T ∧ (dispatch cfg K r s).2 = .error (.badDataType T)) ∧
    (∀ encoded tr, (dispatch cfg (recorder encoded) r tr).1 = tr) := by
  obtain ⟨T, hT, hd⟩ := dispatch_of_typeUnsupported cfg K r h s
  refine ⟨by rw [hd], ⟨T, hT, by rw [hd]⟩, fun encoded tr => ?_⟩
  obtain ⟨_, _, hd'⟩ := dispatch_of_typeUnsupported cfg (recorder encoded) r h tr
  rw [hd']

/-- Witness of C5: a full-array sort of a tensor of element type 7, not a common type. -/
theorem unsupported_type_rejected_witness :
    (dispatch exampleConfig (recorder 0) (.execSort ⟨7, [3], 100⟩ false) []).1 = [] ∧
    (∃ T, (Request.execSort ⟨7, [3], 100⟩ false).elementType exampleConfig = some T ∧
      (dispatch exampleConfig (recorder 0) (.execSort ⟨7, [3], 100⟩ false) []).2
        = .error (.badDataType T)) ∧
    (∀ encoded tr,
      (dispatch exampleConfig (recorder encoded) (.execSort ⟨7, [3], 100⟩ false) tr).1 = tr) :=
  unsupported_type_rejected exampleConfig (recorder 0) (.execSort ⟨7, [3], 100⟩ false)
    ⟨7, [5, 6], rfl, rfl, by decide⟩ []

/-- C6 as stated fails: an axis-restricted sort over 5 dimensions of a rank-2 tensor of a
supported type, and a sparse sort with length -1, are malformed, yet each call succeeds and
the kernel is invoked with the descriptors as passed. -/
theorem malformed_reaches_kernel_counterexample :
    (Request.execSortTad ⟨5, [2, 3], 100⟩ 200 5 false).malformed = true ∧
    dispatch exampleConfig (recorder 0) (.execSortTad ⟨5, [2, 3], 100⟩ 200 5 false) []
      = ([.sortTadGeneric 5 ⟨5, [2, 3], 100⟩ 200 5 false], .ok none) ∧
    (Request.execSortCooIndices 300 400 (-1) [2, 2, 3, 5]).malformed = true ∧
    dispatch exampleConfig (recorder 0) (.execSortCooIndices 300 400 (-1) [2, 2, 3, 5]) []
      = ([.sortCooIndicesGeneric 5 300 400 (-1) 2], .ok none) :=
  ⟨by decide, rfl, by decide, rfl⟩

/-- C6, as the code has it: the helpers look at the element type only. For every call with
malformed operand descriptors (more sort dimensions than `x` has axes, or a negative
`dimensionLength`, `length` or `N`): when the element type is supported (always, for ravel and
unravel) the call succeeds and the kernel is invoked exactly once, at that type, with the
malformed descriptors exactly as passed; when it is unsupported the call fails with the
bad-data-type error and no kernel is invoked. -/
theorem malformed_checked_by_type_only (cfg : Config) (encoded : LongType)
    (tr : List KernelCall) :
    (∀ x dimension dimensionLength descending,
      (Request.execSortTad x dimension dimensionLength descending).malformed = true →
      dispatch cfg (recorder encoded) (.execSortTad x dimension dimensionLength descending) tr
        = (if x.dataType ∈ cfg.SD_COMMON_TYPES then
            (tr ++ [.sortTadGeneric x.dataType x dimension dimensionLength descending],
              .ok none)
          else (tr, .error (.badDataType x.dataType)))) ∧
    (∀ indices x length xShapeInfo,
      (Request.execSortCooIndices indices x length xShapeInfo).malformed = true →
      dispatch cfg (recorder encoded) (.execSortCooIndices indices x length xShapeInfo) tr
        = (if cfg.arrayOptionsDataType xShapeInfo ∈ cfg.SD_COMMON_TYPES then
            (tr ++ [.sortCooIndicesGeneric (cfg.arrayOptionsDataType xShapeInfo) indices x
              length (narrowInt32 (cfg.shapeRank xShapeInfo))], .ok none)
          else (tr, .error (.badDataType (cfg.arrayOptionsDataType xShapeInfo))))) ∧
    (∀ indices flatIndices length shapeInfo mode,
      (Request.execRavelMultiIndex indices flatIndices length shapeInfo mode).malformed = true →
      dispatch cfg (recorder encoded)
          (.execRavelMultiIndex indices flatIndices length shapeInfo mode) tr
        = (tr ++ [.ravelMultiIndex indices flatIndices length shapeInfo mode], .ok none)) ∧
    (∀ indices flatIndices length shapeInfo,
      (Request.execUnravelIndex indices flatIndices length shapeInfo).malformed = true →
      dispatch cfg (recorder encoded) (.execUnravelIndex indices flatIndices length shapeInfo) tr
        = (tr ++ [.unravelIndex indices flatIndices length shapeInfo], .ok none)) ∧
    (∀ x N dz threshold,
      (Request.encodeBitmap x N dz threshold).malformed = true →
      dispatch cfg (recorder encoded) (.encodeBitmap x N dz threshold) tr
        = (if x.dataType ∈ cfg.SD_FLOAT_TYPES then
            (tr ++ [.encodeBitmapGeneric x.dataType x N dz threshold], .ok (some encoded))
          else (tr, .error (.badDataType x.dataType)))) ∧
    (∀ dx N z,
      (Request.decodeBitmap dx N z).malformed = true →
      dispatch cfg (recorder encoded) (.decodeBitmap dx N z) tr
        = (if z.dataType ∈ cfg.SD_FLOAT_TYPES then
            (tr ++ [.decodeBitmapGeneric z.dataType dx z N], .ok none)
          else (tr, .error (.badDataType z.dataType)))) := by
  refine ⟨?_, ?_, ?_, ?_, ?_, ?_⟩
  · intro x dimension dimensionLength descending _
    by_cases hm : x.dataType ∈ cfg.SD_COMMON_TYPES
    · simp [hm, dispatch, execSortTad, BUILD_SINGLE_SELECTOR_of_mem _ _ _ _ hm, noValue,
        propagate, recorder, Except.map]
    · simp [hm, dispatch, execSortTad, BUILD_SINGLE_SELECTOR_of_not_mem _ _ _ _ hm, noValue,
        Except.map]
  · intro indices x length xShapeInfo _
    by_cases hm : cfg.arrayOptionsDataType xShapeInfo ∈ cfg.SD_COMMON_TYPES
    · simp [hm, dispatch, execSortCooIndices, BUILD_SINGLE_SELECTOR_of_mem _ _ _ _ hm, noValue,
        propagate, recorder, Except.map]
    · simp [hm, dispatch, execSortCooIndices, BUILD_SINGLE_SELECTOR_of_not_mem _ _ _ _ hm,
        noValue, Except.map]
  · intro indices flatIndices length shapeInfo mode _
    simp [dispatch, execRavelMultiIndex, noValue, propagate, recorder, Except.map]
  · intro indices flatIndices length shapeInfo _
    simp [dispatch, execUnravelIndex, noValue, propagate, recorder, Except.map]
  · intro x N dz threshold _
    by_cases hm : x.dataType ∈ cfg.SD_FLOAT_TYPES
    · simp [hm, dispatch, encodeBitmap, BUILD_SINGLE_SELECTOR_of_mem _ _ _ _ hm, withValue,
        propagate, recorder, Except.map]
    · simp [hm, dispatch, encodeBitmap, BUILD_SINGLE_SELECTOR_of_not_mem _ _ _ _ hm, withValue,
        Except.map]
  · intro dx N z _
    by_cases hm : z.dataType ∈ cfg.SD_FLOAT_TYPES
    · simp [hm, dispatch, decodeBitmap, BUILD_SINGLE_SELECTOR_of_mem _ _ _ _ hm, noValue,
        propagate, recorder, Except.map]
    · simp [hm, dispatch, decodeBitmap, BUILD_SINGLE_SELECTOR_of_not_mem _ _ _ _ hm, noValue,
        Except.map]

/-- Witness of C6 (amended): the axis-restricted sort over 5 dimensions of a rank-2 tensor of
the common type 5, and a bitmap encoding with `N = -1` of a tensor of type 6, not a float
type. -/
theorem malformed_checked_by_type_only_witness :
    dispatch exampleConfig (recorder 0) (.execSortTad ⟨5, [2, 3], 100⟩ 200 5 false) []
      = ([.sortTadGeneric 5 ⟨5, [2, 3], 100⟩ 200 5 false], .ok none) ∧
    dispatch exampleConfig (recorder 0) (.encodeBitmap ⟨6, [4], 100⟩ (-1) 300 0) []
      = ([], .error (.badDataType 6)) :=
  ⟨((malformed_checked_by_type_only exampleConfig 0 []).1 ⟨5, [2, 3], 100⟩ 200 5 false
      (by decide)).trans (if_pos (by decide)),
   ((malformed_checked_by_type_only exampleConfig 0 []).2.2.2.2.1 ⟨6, [4], 100⟩ (-1) 300 0
      (by decide)).trans (if_neg (by decide))⟩

/-- C7: whatever the kernels are, every successful dispatch is exactly one call of the kernel
with the caller's operands and scalars in the same roles and unchanged (`descending`;
`dimension` and `dimensionLength`; `length`; `mode`; `N`, `dz` and `threshold`); the helper
adds nothing to what the kernel does to the state, and hands back the kernel's result or
error as it is; in particular `encodeBitmap` returns the value its kernel returns. -/
theorem dispatch_passthrough {σ ε : Type} (cfg : Config) (K : Kernels σ ε) (s : σ) :
    (∀ x descending, x.dataType ∈ cfg.SD_COMMON_TYPES →
      execSort cfg K x descending s = propagate (K.sortGeneric x.dataType x descending s)) ∧
    (∀ x dimension dimensionLength descending, x.dataType ∈ cfg.SD_COMMON_TYPES →
      execSortTad cfg K x dimension dimensionLength descending s
        = propagate (K.sortTadGeneric x.dataType x dimension dimensionLength descending s)) ∧
    (∀ indices x length xShapeInfo,
      cfg.arrayOptionsDataType xShapeInfo ∈ cfg.SD_COMMON_TYPES →
      execSortCooIndices cfg K indices x length xShapeInfo s
        = propagate (K.sortCooIndicesGeneric (cfg.arrayOptionsDataType xShapeInfo) indices x
            length (narrowInt32 (cfg.shapeRank xShapeInfo)) s)) ∧
    (∀ indices flatIndices length shapeInfo mode,
      execRavelMultiIndex K indices flatIndices length shapeInfo mode s
        = propagate (K.ravelMultiIndex indices flatIndices length shapeInfo mode s)) ∧
    (∀ indices flatIndices length shapeInfo,
      execUnravelIndex K indices flatIndices length shapeInfo s
        = propagate (K.unravelIndex indices flatIndices length shapeInfo s)) ∧
    (∀ x N dz threshold, x.dataType ∈ cfg.SD_FLOAT_TYPES →
      encodeBitmap cfg K x N dz threshold s
        = propagate (K.encodeBitmapGeneric x.dataType x N dz threshold s)) ∧
    (∀ x N dz threshold v, x.dataType ∈ cfg.SD_FLOAT_TYPES →
      (K.encodeBitmapGeneric x.dataType x N dz threshold s).2 = .ok v →
      (encodeBitmap cfg K x N dz threshold s).2 = .ok v) ∧
    (∀ dx N z, z.dataType ∈ cfg.SD_FLOAT_TYPES →
      decodeBitmap cfg K dx N z s = propagate (K.decodeBitmapGeneric z.dataType dx z N s)) := by
  refine ⟨?_, ?_, ?_, ?_, ?_, ?_, ?_, ?_⟩
  · intro x descending hm
    exact BUILD_SINGLE_SELECTOR_of_mem _ _ _ _ hm
  · intro x dimension dimensionLength descending hm
    exact BUILD_SINGLE_SELECTOR_of_mem _ _ _ _ hm
  · intro indices x length xShapeInfo hm
    exact BUILD_SINGLE_SELECTOR_of_mem _ _ _ _ hm
  · intro indices flatIndices length shapeInfo mode
    rfl
  · intro indices flatIndices length shapeInfo
    rfl
  · intro x N dz threshold hm
    exact BUILD_SINGLE_SELECTOR_of_mem _ _ _ _ hm
  · intro x N dz threshold v hm hv
    have h : encodeBitmap cfg K x N dz threshold s
        = propagate (K.encodeBitmapGeneric x.dataType x N dz threshold s) :=
      BUILD_SINGLE_SELECTOR_of_mem _ _ _ _ hm
    rw [h]
    simp [propagate, hv]
  · intro dx N z hm
    exact BUILD_SINGLE_SELECTOR_of_mem _ _ _ _ hm

/-- Witness of C7: with the recording kernels (the encoder kernel returning 42), an
axis-restricted sort and a bitmap encoding of a tensor of type 5. -/
theorem dispatch_passthrough_witness :
    execSortTad exampleConfig (recorder 42) ⟨5, [2, 3], 100⟩ 200 1 true []
      = propagate ((recorder 42).sortTadGeneric 5 ⟨5, [2, 3], 100⟩ 200 1 true []) ∧
    (encodeBitmap exampleConfig (recorder 42) ⟨5, [6], 100⟩ 6 300 1056964608 []).2 = .ok 42 :=
  ⟨(dispatch_passthrough exampleConfig (recorder 42) []).2.1 ⟨5, [2, 3], 100⟩ 200 1 true
      (by decide),
   (dispatch_passthrough exampleConfig (recorder 42) []).2.2.2.2.2.2.1 ⟨5, [6], 100⟩ 6 300
      1056964608 42 (by decide) rfl⟩

/-- C10: kernel selection depends on the element type of one operand only. Two calls of
`decodeBitmap` whose output tensors `z` have the same element type select the same kernel (or
both fail), whatever `dx`, its element type and `N` are; two calls of `encodeBitmap`, of
`execSort` or of the axis-restricted `execSort` whose `x` have the same element type select
the same kernel (or both fail), whatever the other arguments are. -/
theorem selection_by_designated_operand (cfg : Config) (encoded encoded' : LongType)
    (tr : List KernelCall) :
    (∀ dx dx' N N' z z', z.dataType = z'.dataType →
      selection (decodeBitmap cfg (recorder encoded) dx N z tr)
        = selection (decodeBitmap cfg (recorder encoded') dx' N' z' tr)) ∧
    (∀ x x' N N' dz dz' threshold threshold', x.dataType = x'.dataType →
      selection (encodeBitmap cfg (recorder encoded) x N dz threshold tr)
        = selection (encodeBitmap cfg (recorder encoded') x' N' dz' threshold' tr)) ∧
    (∀ x x' descending descending', x.dataType = x'.dataType →
      selection (execSort cfg (recorder encoded) x descending tr)
        = selection (execSort cfg (recorder encoded') x' descending' tr)) ∧
    (∀ x x' dimension dimension' dimensionLength dimensionLength' descending descending',
      x.dataType = x'.dataType →
      selection (execSortTad cfg (recorder encoded) x dimension dimensionLength descending tr)
        = selection (execSortTad cfg (recorder encoded') x' dimension' dimensionLength'
            descending' tr)) := by
  refine ⟨?_, ?_, ?_, ?_⟩
  · intro dx dx' N N' z z' h
    unfold decodeBitmap
    rw [h]
    exact selection_selector_congr _ _ _ _ _ (by
      simp [selection, propagate, recorder, succeeded, KernelCall.selected, KernelCall.family,
        KernelCall.templateType])
  · intro x x' N N' dz dz' threshold threshold' h
    unfold encodeBitmap
    rw [h]
    exact selection_selector_congr _ _ _ _ _ (by
      simp [selection, propagate, recorder, succeeded, KernelCall.selected, KernelCall.family,
        KernelCall.templateType])
  · intro x x' descending descending' h
    unfold execSort
    rw [h]
    exact selection_selector_congr _ _ _ _ _ (by
      simp [selection, propagate, recorder, succeeded, KernelCall.selected, KernelCall.family,
        KernelCall.templateType])
  · intro x x' dimension dimension' dimensionLength dimensionLength' descending descending' h
    unfold execSortTad
    rw [h]
    exact selection_selector_congr _ _ _ _ _ (by
      simp [selection, propagate, recorder, succeeded, KernelCall.selected, KernelCall.family,
        KernelCall.templateType])

/-- Witness of C10: two decodings into tensors of type 5 from encoded buffers of types 6 and
9, and two sorts of tensors of type 6. -/
theorem selection_by_designated_operand_witness :
    selection (decodeBitmap exampleConfig (recorder 0) ⟨6, [4], 100⟩ 4 ⟨5, [4], 200⟩ [])
      = selection (decodeBitmap exampleConfig (recorder 1) ⟨9, [8], 300⟩ 8 ⟨5, [8], 400⟩ []) ∧
    selection (execSort exampleConfig (recorder 0) ⟨6, [4], 100⟩ false [])
      = selection (execSort exampleConfig (recorder 1) ⟨6, [2, 2], 300⟩ true []) :=
  ⟨(selection_by_designated_operand exampleConfig 0 1 []).1 ⟨6, [4], 100⟩ ⟨9, [8], 300⟩ 4 8
      ⟨5, [4], 200⟩ ⟨5, [8], 400⟩ rfl,
   (selection_by_designated_operand exampleConfig 0 1 []).2.2.1 ⟨6, [4], 100⟩ ⟨6, [2, 2], 300⟩
      false true rfl⟩

end sd

/-! ## Theorems: ravel and unravel -/

namespace sd.sparse.IndexUtils

theorem adjust_of_inBounds (mode : ClipMode) (d c : Int) (h0 : 0 ≤ c) (h1 : c < d) :
    adjust mode d c = some c := by
  simp [adjust, h0, h1]

theorem ravelOne_unravelOne (mode : ClipMode) (shape : List Int) :
    ∀ index : List Int, inBounds shape index = true →
      ∃ flat, ravelOne mode shape index = some flat ∧ 0 ≤ flat ∧ flat < shape.prod ∧
        unravelOne shape flat = index := by
  induction shape with
  | nil =>
    intro index h
    cases index with
    | nil => exact ⟨0, rfl, le_refl _, by simp, rfl⟩
    | cons c cs => simp [inBounds] at h
  | cons d ds ih =>
    intro index h
    cases index with
    | nil => simp [inBounds] at h
    | cons c cs =>
      simp only [inBounds, Bool.and_eq_true, decide_eq_true_eq] at h
      obtain ⟨⟨h0, h1⟩, hcs⟩ := h
      obtain ⟨rest, hr, hr0, hr1, hu⟩ := ih cs hcs
      have hP : 0 < ds.prod := lt_of_le_of_lt hr0 hr1
      refine ⟨c * ds.prod + rest, ?_, ?_, ?_, ?_⟩
      · simp [ravelOne, adjust_of_inBounds mode d c h0 h1, hr]
      · positivity
      · rw [List.prod_cons]
        nlinarith
      · have hdiv : (c * ds.prod + rest) / ds.prod = c := by
          rw [add_comm, Int.add_mul_ediv_right _ _ (ne_of_gt hP),
            Int.ediv_eq_zero_of_lt hr0 hr1, zero_add]
        have hmod : (c * ds.prod + rest) % ds.prod = rest := by
          rw [add_comm, Int.add_mul_emod_self, Int.emod_eq_of_lt hr0 hr1]
        simp only [unravelOne, hdiv, hmod, hu]

/-- C9: for every shape, every mode and every index buffer whose multi-indices are all in
bounds for the shape (`0 <= c_k < shape_k` for each coordinate), ravel succeeds with one flat
index per multi-index, each flat index lies in `[0, number of elements of the shape)`, and
unravelling the flat indices gives back the index buffer, element by element. -/
theorem ravel_unravel_roundtrip (mode : ClipMode) (shape : List Int)
    (indices : List (List Int)) (h : ∀ index ∈ indices, inBounds shape index = true) :
    ∃ flatIndices, ravelMultiIndex shape mode indices = some flatIndices ∧
      flatIndices.length = indices.length ∧
      (∀ flat ∈ flatIndices, 0 ≤ flat ∧ flat < shape.prod) ∧
      unravelIndex shape flatIndices = indices := by
  induction indices with
  | nil => exact ⟨[], rfl, rfl, by simp, rfl⟩
  | cons index rest ih =>
    obtain ⟨flats, hf, hl, hb, hu⟩ := ih (fun i hi => h i (List.mem_cons_of_mem _ hi))
    obtain ⟨flat, hr, h0, h1, hu1⟩ := ravelOne_unravelOne mode shape index
      (h index (List.mem_cons_self _ _))
    refine ⟨flat :: flats, ?_, by simp [hl], ?_, ?_⟩
    · simp [ravelMultiIndex, hr, hf]
    · intro f hfm
      rcases List.mem_cons.mp hfm with rfl | hfm
      · exact ⟨h0, h1⟩
      · exact hb f hfm
    · simp only [unravelIndex, List.map_cons] at hu ⊢
      rw [hu1, hu]

/-- Witness of C9: two multi-indices into a 2 x 3 shape. -/
theorem ravel_unravel_roundtrip_witness :
    ∃ flatIndices, ravelMultiIndex [2, 3] .raise [[1, 2], [0, 1]] = some flatIndices ∧
      flatIndices.length = [[1, 2], [0, 1]].length ∧
      (∀ flat ∈ flatIndices, 0 ≤ flat ∧ flat < [2, 3].prod) ∧
      unravelIndex [2, 3] flatIndices = [[1, 2], [0, 1]] :=
  ravel_unravel_roundtrip .raise [2, 3] [[1, 2], [0, 1]] (by decide)

end sd.sparse.IndexUtils
